import Mathlib

/-!
Shallow embedding of the sailhouse Rust SDK client (src/sdk/src/lib.rs).

The client issues HTTP requests; we model the network as an oracle
`env : Nat → ReqResult` giving the outcome of the n-th request a call
makes, and every operation returns the ordered trace of requests it
issued together with its Rust-level result.

JSON values are modelled by the inductive `Json`; serde serialization of
the Rust structs is translated field by field, including the
`skip_serializing_if = Option.is_none` attributes on `PublishBody` and
the `serde_json json` macro used for the wait-group bodies (which
serializes a Rust `None` as JSON `null`, not by omitting the key).
-/

namespace Sailhouse

/-- Minimal JSON value model (serde_json Value). -/
inductive Json where
  | null : Json
  | bool (b : Bool) : Json
  | num (n : Int) : Json
  | str (s : String) : Json
  | arr (xs : List Json) : Json
  | obj (fields : List (String × Json)) : Json

/-- First-match field lookup in a JSON object; `none` on non-objects and
missing keys. Mirrors how serde finds a named field while decoding. -/
def Json.getField : Json → String → Option Json
  | Json.obj fields, k => (fields.find? (fun p => p.1 == k)).map Prod.snd
  | _, _ => none

/-- The list of keys of a JSON object (empty for non-objects). -/
def Json.keys : Json → List String
  | Json.obj fields => fields.map Prod.fst
  | _ => []

/-- HTTP method of a request issued by the client. -/
inductive Method where
  | get : Method
  | post : Method
  | put : Method
deriving DecidableEq, Repr

/-- One HTTP request as the client builds it: method, URL path (base url
included), query parameters appended with reqwest query, and the JSON
body attached with reqwest json (if any). -/
structure HttpCall where
  method : Method
  path : String
  query : List (String × String)
  body : Option Json

/-- Outcome of sending one request: a transport failure (reqwest error,
identified here by an abstract tag), or a response carrying a status
code and an already-parsed JSON body. -/
inductive ReqResult where
  | transportError (tag : Nat) : ReqResult
  | response (status : Nat) (body : Json) : ReqResult

/-- The reqwest Error values an operation can return: a transport
failure, or a body that failed to decode into the expected shape. -/
inductive RError where
  | transport (tag : Nat) : RError
  | decode (body : Json) : RError

/-- SailhouseClient: configuration only (the reqwest client handle
carries no modelled state). -/
structure SailhouseClient where
  token : String
  base_url : String
deriving DecidableEq, Repr

/-- PublishResponse, decoded from the publish endpoint body. -/
structure PublishResponse where
  id : String
deriving DecidableEq, Repr

/-- serde decode of PublishResponse: requires an object with a string
field id; unknown fields are ignored. -/
def decodePublishResponse (j : Json) : Option PublishResponse :=
  match j.getField "id" with
  | some (Json.str s) => some ⟨s⟩
  | _ => none

/-- WaitGroupInstanceResponse, decoded from the create-instance body. -/
structure WaitGroupInstanceResponse where
  wait_group_instance_id : String
deriving DecidableEq, Repr

/-- serde decode of WaitGroupInstanceResponse. -/
def decodeWaitGroupInstanceResponse (j : Json) : Option WaitGroupInstanceResponse :=
  match j.getField "wait_group_instance_id" with
  | some (Json.str s) => some ⟨s⟩
  | _ => none

/-- PublishBody with the send_at field already converted to a string, as
in the Rust struct (the builder converts the DateTime before
constructing it). The payload type is abstract, with its serializer
passed separately. -/
structure PublishBody (T : Type) where
  data : T
  metadata : Option (List (String × String))
  send_at : Option String
  wait_group_instance_id : Option String

/-- serde serialization of a metadata map. -/
def serializeMetadata (m : List (String × String)) : Json :=
  Json.obj (m.map (fun p => (p.1, Json.str p.2)))

/-- serde serialization of PublishBody: the data field always, then each
optional field only when it is set, because every optional field carries
the attribute skip_serializing_if Option.is_none. -/
def serializePublishBody {T : Type} (serT : T → Json) (b : PublishBody T) : Json :=
  Json.obj
    ([("data", serT b.data)]
      ++ (match b.metadata with
          | none => []
          | some m => [("metadata", serializeMetadata m)])
      ++ (match b.send_at with
          | none => []
          | some s => [("send_at", Json.str s)])
      ++ (match b.wait_group_instance_id with
          | none => []
          | some s => [("wait_group_instance_id", Json.str s)]))

/-- WaitEvent input value: its own topic, a payload, optional metadata,
optional scheduled time (type D abstract, converted by a supplied
to_rfc3339 function). -/
structure WaitEvent (T D : Type) where
  topic : String
  body : T
  metadata : Option (List (String × String))
  send_at : Option D

/-- WaitOptions: the optional ttl time window (a string). -/
structure WaitOptions where
  ttl : Option String
deriving DecidableEq, Repr

/-- GetOption: optional pagination controls. -/
structure GetOption where
  limit : Option Nat
  offset : Option Nat
deriving DecidableEq, Repr

/-- Event as held by the caller after a pull: the two serde-skipped
fields topic and subscription (decoded to their defaults and then
stamped by get_events) and the optional back-reference to the client. -/
structure Event where
  id : String
  data : Json
  topic : String
  subscription : String
  client : Option SailhouseClient

/-- GetEventsResponse decoded from the pull endpoint. -/
structure GetEventsResponse where
  events : List Event
  offset : Int
  limit : Int

/-- serde decode of one pulled event: id and data from the wire, the
serde-skipped fields topic, subscription and client set to their
Default values. -/
def decodeEvent (j : Json) : Option Event :=
  match j.getField "id", j.getField "data" with
  | some (Json.str s), some d => some ⟨s, d, "", "", none⟩
  | _, _ => none

/-- Decode a JSON array elementwise, failing if any element fails. -/
def decodeEventList : List Json → Option (List Event)
  | [] => some []
  | j :: rest =>
    match decodeEvent j, decodeEventList rest with
    | some e, some es => some (e :: es)
    | _, _ => none

/-- serde decode of GetEventsResponse: events array plus integer offset
and limit. -/
def decodeGetEventsResponse (j : Json) : Option GetEventsResponse :=
  match j.getField "events", j.getField "offset", j.getField "limit" with
  | some (Json.arr xs), some (Json.num o), some (Json.num l) =>
    (decodeEventList xs).map (fun es => ⟨es, o, l⟩)
  | _, _, _ => none

/-- PublishBuilder: the chained-option builder returned by
SailhouseClient.publish. The scheduled time keeps its DateTime type D
until send converts it. -/
structure PublishBuilder (T D : Type) where
  client : SailhouseClient
  topic : String
  data : T
  metadata : Option (List (String × String))
  send_at : Option D
  wait_group_instance_id : Option String

section Ops

variable {T D : Type} (serT : T → Json) (toRfc3339 : D → String)

/-- PublishBuilder.new: all optional fields start unset. -/
def PublishBuilder.new (client : SailhouseClient) (topic : String) (data : T) :
    PublishBuilder T D :=
  ⟨client, topic, data, none, none, none⟩

/-- PublishBuilder.with_metadata. -/
def PublishBuilder.with_metadata (pb : PublishBuilder T D)
    (metadata : List (String × String)) : PublishBuilder T D :=
  { pb with metadata := some metadata }

/-- PublishBuilder.with_scheduled_time. -/
def PublishBuilder.with_scheduled_time (pb : PublishBuilder T D) (send_at : D) :
    PublishBuilder T D :=
  { pb with send_at := some send_at }

/-- PublishBuilder.with_wait_group. -/
def PublishBuilder.with_wait_group (pb : PublishBuilder T D)
    (wait_group_id : String) : PublishBuilder T D :=
  { pb with wait_group_instance_id := some wait_group_id }

/-- The POST request built by PublishBuilder.send and by
publish_internal: path /topics/TOPIC/events under the client base url,
body the serialized PublishBody with send_at converted by to_rfc3339. -/
def publishRequest (c : SailhouseClient) (topic : String) (data : T)
    (metadata : Option (List (String × String))) (send_at : Option D)
    (wait_group_instance_id : Option String) : HttpCall :=
  { method := Method.post
  , path := c.base_url ++ "/topics/" ++ topic ++ "/events"
  , query := []
  , body := some (serializePublishBody serT
      ⟨data, metadata, send_at.map toRfc3339, wait_group_instance_id⟩) }

/-- The result a publish-shaped send produces from the outcome of its one
request. The Rust code compares the response status against 201, but the
body of that if is empty (a bare Handle-error comment), so the status has
no effect: the result is the decoded PublishResponse, or a decode error,
or the transport error. -/
def publishOutcome (r : ReqResult) : Except RError PublishResponse :=
  match r with
  | ReqResult.transportError t => Except.error (RError.transport t)
  | ReqResult.response _status body =>
    match decodePublishResponse body with
    | some resp => Except.ok resp
    | none => Except.error (RError.decode body)

/-- PublishBuilder.send: issues the one publish request and returns its
outcome. -/
def PublishBuilder.send (pb : PublishBuilder T D) (r : ReqResult) :
    List HttpCall × Except RError PublishResponse :=
  ([publishRequest serT toRfc3339 pb.client pb.topic pb.data pb.metadata
      pb.send_at pb.wait_group_instance_id],
   publishOutcome r)

/-- SailhouseClient.publish: constructs the builder. -/
def SailhouseClient.publish (c : SailhouseClient) (topic : String) (data : T) :
    PublishBuilder T D :=
  PublishBuilder.new c topic data

/-- The create-instance POST request built at the start of wait. Its body
comes from the serde_json json macro with entries topic and ttl, and the
macro serializes a Rust None as JSON null (the key is always present). -/
def createInstanceRequest (c : SailhouseClient) (topic : String)
    (options : Option WaitOptions) : HttpCall :=
  { method := Method.post
  , path := c.base_url ++ "/waitgroups/instances"
  , query := []
  , body := some (Json.obj
      [("topic", Json.str topic),
       ("ttl", match options.bind WaitOptions.ttl with
               | none => Json.null
               | some s => Json.str s)]) }

/-- The completion PUT request at the end of wait, with an empty JSON
object body. -/
def completeInstanceRequest (c : SailhouseClient) (wgid : String) : HttpCall :=
  { method := Method.put
  , path := c.base_url ++ "/waitgroups/instances/" ++ wgid ++ "/events"
  , query := []
  , body := some (Json.obj []) }

/-- The sequential publish loop inside wait. The i-th iteration consumes
oracle entry env i; a failing publish stops the loop at once with that
error. The Rust loop passes the OUTER topic parameter to
publish_internal; the topic field of each WaitEvent is not read here.
Returns the issued calls, the next unused oracle index, and the result. -/
def waitPublishLoop (c : SailhouseClient) (topic wgid : String)
    (env : Nat → ReqResult) :
    List (WaitEvent T D) → Nat → List HttpCall × Nat × Except RError Unit
  | [], i => ([], i, Except.ok ())
  | ev :: rest, i =>
    let call := publishRequest serT toRfc3339 c topic ev.body ev.metadata
      ev.send_at (some wgid)
    match publishOutcome (env i) with
    | Except.error e => ([call], i + 1, Except.error e)
    | Except.ok _ =>
      let next := waitPublishLoop c topic wgid env rest (i + 1)
      (call :: next.1, next.2.1, next.2.2)

/-- SailhouseClient.wait: create the wait-group instance (no status check
before decoding its body), publish each event sequentially tagged with
the returned identifier, then PUT the completion request. The completion
status check in the Rust code has an empty body, so any completed
completion request yields Ok. -/
def SailhouseClient.wait (c : SailhouseClient) (topic : String)
    (events : List (WaitEvent T D)) (options : Option WaitOptions)
    (env : Nat → ReqResult) : List HttpCall × Except RError Unit :=
  let createCall := createInstanceRequest c topic options
  match env 0 with
  | ReqResult.transportError t =>
    ([createCall], Except.error (RError.transport t))
  | ReqResult.response _status body =>
    match decodeWaitGroupInstanceResponse body with
    | none => ([createCall], Except.error (RError.decode body))
    | some inst =>
      let wgid := inst.wait_group_instance_id
      let loop := waitPublishLoop serT toRfc3339 c topic wgid env events 1
      match loop.2.2 with
      | Except.error e => (createCall :: loop.1, Except.error e)
      | Except.ok _ =>
        let completeCall := completeInstanceRequest c wgid
        match env loop.2.1 with
        | ReqResult.transportError t =>
          (createCall :: (loop.1 ++ [completeCall]),
           Except.error (RError.transport t))
        | ReqResult.response _ _ =>
          (createCall :: (loop.1 ++ [completeCall]), Except.ok ())

/-- SailhouseClient.get_events: one GET request with limit and offset
query parameters appended only when present; on success every decoded
Event is stamped with the requesting topic and subscription and bound to
a clone of the client. -/
def SailhouseClient.get_events (c : SailhouseClient)
    (topic subscription : String) (opts : GetOption) (r : ReqResult) :
    List HttpCall × Except RError GetEventsResponse :=
  let call : HttpCall :=
    { method := Method.get
    , path := c.base_url ++ "/topics/" ++ topic ++ "/subscriptions/"
        ++ subscription ++ "/events"
    , query :=
        (match opts.limit with
         | none => []
         | some l => [("limit", toString l)])
        ++ (match opts.offset with
            | none => []
            | some o => [("offset", toString o)])
    , body := none }
  ([call],
   match r with
   | ReqResult.transportError t => Except.error (RError.transport t)
   | ReqResult.response _status body =>
     match decodeGetEventsResponse body with
     | none => Except.error (RError.decode body)
     | some resp =>
       Except.ok { resp with
         events := resp.events.map (fun e =>
           { e with topic := topic, subscription := subscription,
                    client := some c }) })

/-- SailhouseClient.acknowledge_message: one POST with empty object body.
The status-200 check in the Rust code has an empty body, so any completed
request yields Ok. -/
def SailhouseClient.acknowledge_message (c : SailhouseClient)
    (topic subscription id : String) (r : ReqResult) :
    List HttpCall × Except RError Unit :=
  ([{ method := Method.post
    , path := c.base_url ++ "/topics/" ++ topic ++ "/subscriptions/"
        ++ subscription ++ "/events/" ++ id
    , query := []
    , body := some (Json.obj []) }],
   match r with
   | ReqResult.transportError t => Except.error (RError.transport t)
   | ReqResult.response _ _ => Except.ok ())

/-- Event.ack: delegates to acknowledge_message through the bound client,
or returns Ok immediately, issuing no request, when no client is bound. -/
def Event.ack (e : Event) (r : ReqResult) : List HttpCall × Except RError Unit :=
  match e.client with
  | some c => SailhouseClient.acknowledge_message c e.topic e.subscription e.id r
  | none => ([], Except.ok ())

end Ops

/-- The result of the create-instance step of wait as a function of the
outcome of its request: the decoded WaitGroupInstanceResponse, or a
decode error, or the transport error. No status check occurs before
decoding in the Rust code. -/
def createOutcome (r : ReqResult) : Except RError WaitGroupInstanceResponse :=
  match r with
  | ReqResult.transportError t => Except.error (RError.transport t)
  | ReqResult.response _status body =>
    match decodeWaitGroupInstanceResponse body with
    | some inst => Except.ok inst
    | none => Except.error (RError.decode body)

/-- Whether a request outcome makes a publish-shaped send succeed. -/
def pubOk (r : ReqResult) : Bool :=
  match publishOutcome r with
  | Except.ok _ => true
  | Except.error _ => false

/-- A concrete client configuration for instantiating theorems. -/
def cTest : SailhouseClient := ⟨"test-token", "B"⟩

/-- A create-instance response body carrying the given identifier. -/
def wgBody (w : String) : Json :=
  Json.obj [("wait_group_instance_id", Json.str w)]

/-- A publish response body with a fixed event identifier. -/
def pubBody : Json := Json.obj [("id", Json.str "evt-1")]

/-- Oracle where the create call returns identifier wg1 and every later
request gets a decodable 201 response. -/
def envGood : Nat → ReqResult
  | 0 => ReqResult.response 200 (wgBody "wg1")
  | _ + 1 => ReqResult.response 201 pubBody

/-- Oracle where the create call succeeds but returns an EMPTY
identifier, and every later request gets a decodable 201 response. -/
def envEmptyId : Nat → ReqResult
  | 0 => ReqResult.response 200 (wgBody "")
  | _ + 1 => ReqResult.response 201 pubBody

/-- Oracle whose every request fails at transport level with tag 7. -/
def envCreateFail : Nat → ReqResult :=
  fun _ => ReqResult.transportError 7

/-- Oracle where create succeeds and the first publish fails at
transport level with tag 5. -/
def envPubFail0 : Nat → ReqResult
  | 0 => ReqResult.response 200 (wgBody "wg1")
  | _ + 1 => ReqResult.transportError 5

/-- Oracle where create succeeds, the first publish succeeds, and the
second publish fails at transport level with the same tag 5. -/
def envPubFail1 : Nat → ReqResult
  | 0 => ReqResult.response 200 (wgBody "wg1")
  | 1 => ReqResult.response 201 pubBody
  | _ + 2 => ReqResult.transportError 5

/-- A minimal WaitEvent with the given topic, a null payload and no
optional fields, for instantiating theorems. -/
def evNull (t : String) : WaitEvent Json Nat := ⟨t, Json.null, none, none⟩

section Lemmas

variable {T D : Type} (serT : T → Json) (toRfc3339 : D → String)

/-- If the first events.length oracle entries from index i all make a
publish succeed, the publish loop issues one request per event in input
order, consumes exactly events.length oracle entries and succeeds. -/
theorem waitPublishLoop_ok (c : SailhouseClient) (topic wgid : String)
    (env : Nat → ReqResult) (events : List (WaitEvent T D)) (i : Nat)
    (h : ∀ k, k < events.length → pubOk (env (i + k)) = true) :
    waitPublishLoop serT toRfc3339 c topic wgid env events i =
      (events.map (fun ev => publishRequest serT toRfc3339 c topic ev.body
          ev.metadata ev.send_at (some wgid)),
       i + events.length, Except.ok ()) := by
  induction events generalizing i with
  | nil => simp [waitPublishLoop]
  | cons ev rest ih =>
    have h0 : pubOk (env i) = true := by
      have := h 0 (by simp)
      simpa using this
    have hrest : ∀ k, k < rest.length → pubOk (env (i + 1 + k)) = true := by
      intro k hk
      have := h (k + 1) (by simpa using Nat.succ_lt_succ hk)
      have harith : i + (k + 1) = i + 1 + k := by omega
      rwa [harith] at this
    have hout : ∃ resp, publishOutcome (env i) = Except.ok resp := by
      unfold pubOk at h0
      cases hpo : publishOutcome (env i) with
      | ok resp => exact ⟨resp, rfl⟩
      | error e => rw [hpo] at h0; simp at h0
    obtain ⟨resp, hresp⟩ := hout
    simp only [waitPublishLoop, hresp, ih (i + 1) hrest]
    have harith : i + 1 + rest.length = i + (rest.length + 1) := by omega
    simp [harith]

/-- If the first k oracle entries from index i make a publish succeed
and entry i + k makes it fail with err, the loop issues exactly the
first k + 1 requests, consumes k + 1 oracle entries, and returns err. -/
theorem waitPublishLoop_fail (c : SailhouseClient) (topic wgid : String)
    (env : Nat → ReqResult) (events : List (WaitEvent T D)) (i k : Nat)
    (err : RError) (hk : k < events.length)
    (hok : ∀ m, m < k → pubOk (env (i + m)) = true)
    (hfail : publishOutcome (env (i + k)) = Except.error err) :
    waitPublishLoop serT toRfc3339 c topic wgid env events i =
      ((events.take (k + 1)).map (fun ev => publishRequest serT toRfc3339 c
          topic ev.body ev.metadata ev.send_at (some wgid)),
       i + k + 1, Except.error err) := by
  induction events generalizing i k with
  | nil => simp at hk
  | cons ev rest ih =>
    cases k with
    | zero =>
      have hfail0 : publishOutcome (env i) = Except.error err := by
        simpa using hfail
      simp [waitPublishLoop, hfail0]
    | succ k' =>
      have h0 : pubOk (env i) = true := by
        have := hok 0 (Nat.succ_pos k')
        simpa using this
      have hout : ∃ resp, publishOutcome (env i) = Except.ok resp := by
        unfold pubOk at h0
        cases hpo : publishOutcome (env i) with
        | ok resp => exact ⟨resp, rfl⟩
        | error e => rw [hpo] at h0; simp at h0
      obtain ⟨resp, hresp⟩ := hout
      have hk' : k' < rest.length := by simpa using Nat.lt_of_succ_lt_succ hk
      have hok' : ∀ m, m < k' → pubOk (env (i + 1 + m)) = true := by
        intro m hm
        have := hok (m + 1) (Nat.succ_lt_succ hm)
        have harith : i + (m + 1) = i + 1 + m := by omega
        rwa [harith] at this
      have hfail' : publishOutcome (env (i + 1 + k')) = Except.error err := by
        have harith : i + (k' + 1) = i + 1 + k' := by omega
        rwa [harith] at hfail
      simp only [waitPublishLoop, hresp, ih (i + 1) k' hk' hok' hfail']
      have harith : i + 1 + k' + 1 = i + (k' + 1) + 1 := by omega
      simp [harith]

/-- Looking up the wait_group_instance_id key in a serialized PublishBody
whose wait_group_instance_id field is set yields exactly that identifier
as a JSON string. -/
theorem serializePublishBody_getField_wgid {T : Type} (serT : T → Json)
    (data : T) (metadata : Option (List (String × String)))
    (send_at : Option String) (w : String) :
    (serializePublishBody serT ⟨data, metadata, send_at, some w⟩).getField
        "wait_group_instance_id" = some (Json.str w) := by
  cases metadata <;> cases send_at <;> rfl

end Lemmas

section Claims

variable {T D : Type}

/-- C1: the claim states each WaitEvent is published to the topic in its
own topic field. Counterexample: a Wait on outer topic orders with one
WaitEvent whose own topic is other issues its publish request to
B/topics/orders/events, and no request in the trace targets
B/topics/other/events. -/
theorem C1_counterexample :
    ((SailhouseClient.wait (T := Json) (D := Nat) id toString cTest "orders"
        [evNull "other"] none envGood).1.map HttpCall.path) =
      ["B/waitgroups/instances", "B/topics/orders/events",
       "B/waitgroups/instances/wg1/events"] ∧
    "B/topics/other/events" ∉
      ((SailhouseClient.wait (T := Json) (D := Nat) id toString cTest "orders"
        [evNull "other"] none envGood).1.map HttpCall.path) :=
  ⟨rfl, by decide⟩

/-- C1 (amended): every publish request issued by the publish loop of
wait targets the OUTER topic parameter; the topic field of the
individual WaitEvent is ignored. -/
theorem C1_wait_publishes_to_outer_topic (serT : T → Json)
    (toRfc3339 : D → String) (c : SailhouseClient) (topic wgid : String)
    (env : Nat → ReqResult) (events : List (WaitEvent T D)) (i : Nat) :
    ∀ call ∈ (waitPublishLoop serT toRfc3339 c topic wgid env events i).1,
      call.path = c.base_url ++ "/topics/" ++ topic ++ "/events" := by
  induction events generalizing i with
  | nil => intro call hcall; simp [waitPublishLoop] at hcall
  | cons ev rest ih =>
    intro call hcall
    cases hpo : publishOutcome (env i) with
    | error e =>
      simp only [waitPublishLoop, hpo] at hcall
      simp only [List.mem_singleton] at hcall
      subst hcall
      rfl
    | ok resp =>
      simp only [waitPublishLoop, hpo] at hcall
      simp only [List.mem_cons] at hcall
      rcases hcall with h | h
      · subst h; rfl
      · exact ih (i + 1) call h

/-- C1 witness: the amended theorem applied to a concrete loop run. -/
theorem C1_witness :
    (publishRequest (T := Json) (D := Nat) id toString cTest "orders"
        Json.null none none (some "wg1")).path =
      cTest.base_url ++ "/topics/" ++ "orders" ++ "/events" :=
  C1_wait_publishes_to_outer_topic id toString cTest "orders" "wg1" envGood
    [evNull "other"] 1
    (publishRequest (T := Json) (D := Nat) id toString cTest "orders"
      Json.null none none (some "wg1"))
    (by
      have h : (waitPublishLoop (T := Json) (D := Nat) id toString cTest
            "orders" "wg1" envGood [evNull "other"] 1).1 =
          [publishRequest (T := Json) (D := Nat) id toString cTest "orders"
            Json.null none none (some "wg1")] := rfl
      rw [h]
      exact List.mem_singleton.mpr rfl)

/-- C2: the claim states a successful create returning an EMPTY
identifier also causes zero publishes and a setup error. Counterexample:
with a create response carrying an empty identifier, wait still issues a
publish request (three requests in total, the completion path showing
the empty identifier) and returns success. -/
theorem C2_counterexample :
    createOutcome (envEmptyId 0) =
      Except.ok (⟨""⟩ : WaitGroupInstanceResponse) ∧
    ((SailhouseClient.wait (T := Json) (D := Nat) id toString cTest "orders"
        [evNull "orders"] none envEmptyId).1.map HttpCall.path) =
      ["B/waitgroups/instances", "B/topics/orders/events",
       "B/waitgroups/instances//events"] ∧
    (SailhouseClient.wait (T := Json) (D := Nat) id toString cTest "orders"
        [evNull "orders"] none envEmptyId).2 = Except.ok () :=
  ⟨rfl, rfl, rfl⟩

/-- C2 (amended): if the create-instance step fails (transport failure
or undecodable body), wait issues exactly the one create request, no
publish and no completion request, and returns that error. -/
theorem C2_create_failure_aborts (serT : T → Json) (toRfc3339 : D → String)
    (c : SailhouseClient) (topic : String) (events : List (WaitEvent T D))
    (options : Option WaitOptions) (env : Nat → ReqResult) (err : RError)
    (h : createOutcome (env 0) = Except.error err) :
    SailhouseClient.wait serT toRfc3339 c topic events options env =
      ([createInstanceRequest c topic options], Except.error err) := by
  cases henv : env 0 with
  | transportError t =>
    rw [henv] at h
    simp only [createOutcome, Except.error.injEq] at h
    subst h
    simp only [SailhouseClient.wait, henv]
  | response st body =>
    rw [henv] at h
    cases hdec : decodeWaitGroupInstanceResponse body with
    | none =>
      simp only [createOutcome, hdec, Except.error.injEq] at h
      subst h
      simp only [SailhouseClient.wait, henv, hdec]
    | some inst =>
      simp only [createOutcome, hdec] at h
      exact absurd h (by simp)

/-- C2 witness: the amended theorem applied to an oracle whose create
request fails at transport level. -/
theorem C2_witness :
    SailhouseClient.wait (T := Json) (D := Nat) id toString cTest "orders"
        [evNull "orders"] none envCreateFail =
      ([createInstanceRequest cTest "orders" none],
       Except.error (RError.transport 7)) :=
  C2_create_failure_aborts id toString cTest "orders" [evNull "orders"] none
    envCreateFail (RError.transport 7) rfl

/-- C3: the claim states the error returned after a failed publish
identifies the failing index k. Counterexample: a run failing at the
first publish (two requests issued) and a run failing at the second
publish (three requests issued) return the IDENTICAL error value, so the
result does not identify the failing index. -/
theorem C3_counterexample :
    (SailhouseClient.wait (T := Json) (D := Nat) id toString cTest "orders"
        [evNull "orders"] none envPubFail0).2 =
      (SailhouseClient.wait (T := Json) (D := Nat) id toString cTest "orders"
        [evNull "orders", evNull "orders"] none envPubFail1).2 ∧
    (SailhouseClient.wait (T := Json) (D := Nat) id toString cTest "orders"
        [evNull "orders"] none envPubFail0).1.length = 2 ∧
    (SailhouseClient.wait (T := Json) (D := Nat) id toString cTest "orders"
        [evNull "orders", evNull "orders"] none envPubFail1).1.length = 3 :=
  ⟨rfl, rfl, rfl⟩

/-- C3 (amended): if publishes 0..k-1 succeed and publish k fails, wait
issues exactly the create request plus the first k + 1 publish requests,
no completion request, and returns the raw error of the failed publish
(an error value that does not carry the index). -/
theorem C3_publish_failure_aborts (serT : T → Json) (toRfc3339 : D → String)
    (c : SailhouseClient) (topic : String) (events : List (WaitEvent T D))
    (options : Option WaitOptions) (env : Nat → ReqResult)
    (inst : WaitGroupInstanceResponse) (k : Nat) (err : RError)
    (hc : createOutcome (env 0) = Except.ok inst)
    (hk : k < events.length)
    (hok : ∀ m, m < k → pubOk (env (1 + m)) = true)
    (hfail : publishOutcome (env (1 + k)) = Except.error err) :
    SailhouseClient.wait serT toRfc3339 c topic events options env =
      (createInstanceRequest c topic options ::
        (events.take (k + 1)).map (fun ev => publishRequest serT toRfc3339 c
          topic ev.body ev.metadata ev.send_at
          (some inst.wait_group_instance_id)),
       Except.error err) := by
  cases henv : env 0 with
  | transportError t =>
    rw [henv] at hc
    simp [createOutcome] at hc
  | response st body =>
    rw [henv] at hc
    cases hdec : decodeWaitGroupInstanceResponse body with
    | none => simp [createOutcome, hdec] at hc
    | some inst2 =>
      simp only [createOutcome, hdec, Except.ok.injEq] at hc
      subst hc
      have hloop := waitPublishLoop_fail serT toRfc3339 c topic
        inst2.wait_group_instance_id env events 1 k err hk hok hfail
      simp only [SailhouseClient.wait, henv, hdec, hloop]

/-- C3 witness: the amended theorem applied to an oracle whose first
publish fails at transport level. -/
theorem C3_witness :
    SailhouseClient.wait (T := Json) (D := Nat) id toString cTest "orders"
        [evNull "orders"] none envPubFail0 =
      ([createInstanceRequest cTest "orders" none,
        publishRequest (T := Json) (D := Nat) id toString cTest "orders"
          Json.null none none (some "wg1")],
       Except.error (RError.transport 5)) :=
  C3_publish_failure_aborts id toString cTest "orders" [evNull "orders"] none
    envPubFail0 ⟨"wg1"⟩ 0 (RError.transport 5) rfl (by decide)
    (fun m hm => absurd hm (Nat.not_lt_zero m)) rfl

/-- C4: when the create step succeeds with identifier wgid and every
publish succeeds, the trace of wait is the create request, then one
publish request per event IN INPUT ORDER, then the completion request;
and the body of every one of those publish requests carries
wait_group_instance_id equal to wgid. -/
theorem C4_success_order_and_id (serT : T → Json) (toRfc3339 : D → String)
    (c : SailhouseClient) (topic : String) (events : List (WaitEvent T D))
    (options : Option WaitOptions) (env : Nat → ReqResult)
    (inst : WaitGroupInstanceResponse)
    (hc : createOutcome (env 0) = Except.ok inst)
    (hok : ∀ m, m < events.length → pubOk (env (1 + m)) = true) :
    (SailhouseClient.wait serT toRfc3339 c topic events options env).1 =
      createInstanceRequest c topic options ::
        (events.map (fun ev => publishRequest serT toRfc3339 c topic ev.body
          ev.metadata ev.send_at (some inst.wait_group_instance_id))
         ++ [completeInstanceRequest c inst.wait_group_instance_id]) ∧
    ∀ call ∈ events.map (fun ev => publishRequest serT toRfc3339 c topic
        ev.body ev.metadata ev.send_at (some inst.wait_group_instance_id)),
      call.body.bind (fun b => b.getField "wait_group_instance_id") =
        some (Json.str inst.wait_group_instance_id) := by
  constructor
  · cases henv : env 0 with
    | transportError t =>
      rw [henv] at hc
      simp [createOutcome] at hc
    | response st body =>
      rw [henv] at hc
      cases hdec : decodeWaitGroupInstanceResponse body with
      | none => simp [createOutcome, hdec] at hc
      | some inst2 =>
        simp only [createOutcome, hdec, Except.ok.injEq] at hc
        subst hc
        have hloop := waitPublishLoop_ok serT toRfc3339 c topic
          inst2.wait_group_instance_id env events 1 hok
        simp only [SailhouseClient.wait, henv, hdec, hloop]
        cases env (1 + events.length) <;> rfl
  · intro call hcall
    rw [List.mem_map] at hcall
    obtain ⟨ev, _, rfl⟩ := hcall
    exact serializePublishBody_getField_wgid serT ev.body ev.metadata
      (ev.send_at.map toRfc3339) inst.wait_group_instance_id

/-- C4 witness: the trace conjunct at a concrete two-event run. -/
theorem C4_witness :
    (SailhouseClient.wait (T := Json) (D := Nat) id toString cTest "orders"
        [evNull "orders", evNull "other"] none envGood).1 =
      createInstanceRequest cTest "orders" none ::
        ([evNull "orders", evNull "other"].map (fun ev =>
          publishRequest id toString cTest "orders" ev.body ev.metadata
            ev.send_at (some "wg1"))
         ++ [completeInstanceRequest cTest "wg1"]) :=
  (C4_success_order_and_id id toString cTest "orders"
    [evNull "orders", evNull "other"] none envGood ⟨"wg1"⟩ rfl (by decide)).1

/-- C5: wait on an empty event list whose create step succeeds issues
exactly one create request and one completion request and no publish
request, whatever the outcome of the completion request. -/
theorem C5_empty_events (serT : T → Json) (toRfc3339 : D → String)
    (c : SailhouseClient) (topic : String) (options : Option WaitOptions)
    (env : Nat → ReqResult) (inst : WaitGroupInstanceResponse)
    (hc : createOutcome (env 0) = Except.ok inst) :
    (SailhouseClient.wait serT toRfc3339 c topic
        ([] : List (WaitEvent T D)) options env).1 =
      [createInstanceRequest c topic options,
       completeInstanceRequest c inst.wait_group_instance_id] := by
  cases henv : env 0 with
  | transportError t =>
    rw [henv] at hc
    simp [createOutcome] at hc
  | response st body =>
    rw [henv] at hc
    cases hdec : decodeWaitGroupInstanceResponse body with
    | none => simp [createOutcome, hdec] at hc
    | some inst2 =>
      simp only [createOutcome, hdec, Except.ok.injEq] at hc
      subst hc
      simp only [SailhouseClient.wait, henv, hdec, waitPublishLoop]
      cases env 1 <;> rfl

/-- C5 witness: the theorem applied to a concrete successful run. -/
theorem C5_witness :
    (SailhouseClient.wait (T := Json) (D := Nat) id toString cTest "orders"
        [] none envGood).1 =
      [createInstanceRequest cTest "orders" none,
       completeInstanceRequest cTest "wg1"] :=
  C5_empty_events id toString cTest "orders" none envGood ⟨"wg1"⟩ rfl

/-- C6: the body of the one request issued by PublishBuilder.send holds
the data field plus exactly the optional fields that are set: looking up
each optional key yields the set value (send_at as the RFC 3339 string
produced by to_rfc3339, wrapped as a JSON string) or nothing at all when
unset, and the key list of the body object contains a key per set field
only — an unset field is absent, never null. -/
theorem C6_publish_body_exact (serT : T → Json) (toRfc3339 : D → String)
    (c : SailhouseClient) (topic : String) (data : T)
    (metadata : Option (List (String × String))) (send_at : Option D)
    (wgid : Option String) (r : ReqResult) :
    ∃ bj,
      ((PublishBuilder.send serT toRfc3339
          ⟨c, topic, data, metadata, send_at, wgid⟩ r).1.map HttpCall.body) =
        [some bj] ∧
      bj.getField "data" = some (serT data) ∧
      bj.getField "metadata" = metadata.map serializeMetadata ∧
      bj.getField "send_at" =
        send_at.map (fun d => Json.str (toRfc3339 d)) ∧
      bj.getField "wait_group_instance_id" = wgid.map Json.str ∧
      bj.keys = ["data"]
        ++ (if metadata.isSome then ["metadata"] else [])
        ++ (if send_at.isSome then ["send_at"] else [])
        ++ (if wgid.isSome then ["wait_group_instance_id"] else []) := by
  refine ⟨serializePublishBody serT
    ⟨data, metadata, send_at.map toRfc3339, wgid⟩, rfl, ?_, ?_, ?_, ?_, ?_⟩ <;>
    cases metadata <;> cases send_at <;> cases wgid <;> rfl

/-- C7: the claim states publish succeeds only on HTTP 201. On the code,
a 500 response whose body decodes as a PublishResponse makes
PublishBuilder.send return success: the status comparison against 201 in
the Rust source has an empty branch body under a Handle-error comment,
so the non-201 status is never surfaced. -/
theorem C7_non201_returns_ok :
    PublishBuilder.send (T := Json) (D := Nat) id toString
      (PublishBuilder.new cTest "t" Json.null)
      (ReqResult.response 500 (Json.obj [("id", Json.str "evt-9")])) =
    ([{ method := Method.post, path := "B/topics/t/events", query := []
      , body := some (Json.obj [("data", Json.null)]) }],
     Except.ok ⟨"evt-9"⟩) := rfl

/-- C8: every Event in a successful get_events result is stamped with
the requesting topic and subscription, is bound to the requesting
client, and calling ack on it issues exactly the acknowledge request for
that topic, subscription and event identifier. -/
theorem C8_events_stamped (c : SailhouseClient) (topic subscription : String)
    (opts : GetOption) (r : ReqResult) (resp : GetEventsResponse)
    (h : (SailhouseClient.get_events c topic subscription opts r).2 =
      Except.ok resp) :
    ∀ e ∈ resp.events, e.topic = topic ∧ e.subscription = subscription ∧
      e.client = some c ∧
      ∀ r2, (Event.ack e r2).1 =
        [⟨Method.post, c.base_url ++ "/topics/" ++ topic
            ++ "/subscriptions/" ++ subscription ++ "/events/" ++ e.id,
          [], some (Json.obj [])⟩] := by
  cases r with
  | transportError t => simp [SailhouseClient.get_events] at h
  | response st body =>
    cases hdec : decodeGetEventsResponse body with
    | none => simp [SailhouseClient.get_events, hdec] at h
    | some resp0 =>
      simp only [SailhouseClient.get_events, hdec, Except.ok.injEq] at h
      subst h
      intro e he
      rw [List.mem_map] at he
      obtain ⟨a, _, rfl⟩ := he
      exact ⟨rfl, rfl, rfl, fun r2 => rfl⟩

/-- C8 witness: the theorem applied to a concrete wire response with one
event. -/
theorem C8_witness :
    (⟨"e1", Json.null, "t", "s", some cTest⟩ : Event).topic = "t" ∧
    (⟨"e1", Json.null, "t", "s", some cTest⟩ : Event).subscription = "s" ∧
    (⟨"e1", Json.null, "t", "s", some cTest⟩ : Event).client = some cTest :=
  have happ := C8_events_stamped cTest "t" "s" ⟨none, none⟩
    (ReqResult.response 200 (Json.obj
      [("events", Json.arr [Json.obj [("id", Json.str "e1"),
        ("data", Json.null)]]),
       ("offset", Json.num 0), ("limit", Json.num 10)]))
    ⟨[⟨"e1", Json.null, "t", "s", some cTest⟩], 0, 10⟩ rfl
    ⟨"e1", Json.null, "t", "s", some cTest⟩ (List.mem_singleton.mpr rfl)
  ⟨happ.1, happ.2.1, happ.2.2.1⟩

/-- C9: calling ack on an Event with no bound client returns success and
issues no request at all, whatever the oracle would answer. -/
theorem C9_ack_unbound_noop (id : String) (data : Json)
    (topic subscription : String) (r : ReqResult) :
    Event.ack ⟨id, data, topic, subscription, none⟩ r =
      ([], Except.ok ()) := rfl

/-- C10: the claim states that with no ttl option the create-instance
body omits the ttl key entirely. Counterexample: the first request of a
concrete wait with no options has body with keys topic AND ttl, the ttl
key mapped to JSON null. -/
theorem C10_counterexample :
    ((SailhouseClient.wait (T := Json) (D := Nat) id toString cTest "orders"
        [] none envGood).1.head?.bind (fun call => call.body)) =
      some (Json.obj [("topic", Json.str "orders"), ("ttl", Json.null)]) ∧
    (Json.obj [("topic", Json.str "orders"),
      ("ttl", Json.null)]).getField "ttl" = some Json.null ∧
    (Json.obj [("topic", Json.str "orders"),
      ("ttl", Json.null)]).keys = ["topic", "ttl"] :=
  ⟨rfl, rfl, rfl⟩

/-- C10 (amended): whenever no ttl is supplied, the first request issued
by wait is the create-instance POST whose body holds the topic and a ttl
key explicitly set to JSON null (the serde_json json macro serializes a
Rust None as null rather than omitting the key). -/
theorem C10_ttl_null_when_absent (serT : T → Json) (toRfc3339 : D → String)
    (c : SailhouseClient) (topic : String) (events : List (WaitEvent T D))
    (options : Option WaitOptions) (env : Nat → ReqResult)
    (h : options.bind WaitOptions.ttl = none) :
    (SailhouseClient.wait serT toRfc3339 c topic events options env).1.head? =
      some ⟨Method.post, c.base_url ++ "/waitgroups/instances", [],
        some (Json.obj [("topic", Json.str topic), ("ttl", Json.null)])⟩ := by
  have hhead : (SailhouseClient.wait serT toRfc3339 c topic events options
      env).1.head? = some (createInstanceRequest c topic options) := by
    cases henv : env 0 with
    | transportError t => simp [SailhouseClient.wait, henv]
    | response st body =>
      cases hdec : decodeWaitGroupInstanceResponse body with
      | none => simp [SailhouseClient.wait, henv, hdec]
      | some inst =>
        simp only [SailhouseClient.wait, henv, hdec]
        cases hl : (waitPublishLoop serT toRfc3339 c topic
            inst.wait_group_instance_id env events 1).2.2 with
        | error e => simp [hl]
        | ok u =>
          simp only [hl]
          cases env ((waitPublishLoop serT toRfc3339 c topic
              inst.wait_group_instance_id env events 1).2.1) <;> rfl
  rw [hhead]
  simp [createInstanceRequest, h]

/-- C10 witness: the amended theorem applied to a concrete run with no
options. -/
theorem C10_witness :
    (SailhouseClient.wait (T := Json) (D := Nat) id toString cTest "other"
        [evNull "other"] none envGood).1.head? =
      some ⟨Method.post, cTest.base_url ++ "/waitgroups/instances", [],
        some (Json.obj [("topic", Json.str "other"), ("ttl", Json.null)])⟩ :=
  C10_ttl_null_when_absent id toString cTest "other" [evNull "other"] none
    envGood rfl

end Claims

end Sailhouse
